import Mathlib

/-
Verification of the dual-backend comment-generation service.
Buffered mode is embedded from src/comment_generation/app.py,
streaming mode from src/streaming_response/main.py.
-/

namespace DBC

namespace CommentGen

/-- Exception values a backend call in app.py can raise. The first three
constructors are the OpenAI client exceptions that generate_comment catches
(APIError, APIConnectionError, RateLimitError); rpcError is the xAI client
exception it catches (grpc.RpcError); other stands for any exception outside
both caught taxonomies, carrying the exception class name and message. -/
inductive Exn where
  | apiError (msg : String)
  | apiConnectionError (msg : String)
  | rateLimitError (msg : String)
  | rpcError (msg : String)
  | other (className msg : String)
  deriving DecidableEq

/-- The exception tuple caught around call_openai_api in generate_comment:
(APIError, APIConnectionError, RateLimitError). -/
def Exn.isOpenAITaxonomy : Exn → Bool
  | .apiError _ => true
  | .apiConnectionError _ => true
  | .rateLimitError _ => true
  | _ => false

/-- The exception caught around call_xai_api in generate_comment: grpc.RpcError. -/
def Exn.isRpcError : Exn → Bool
  | .rpcError _ => true
  | _ => false

/-- Behavior of the two remote calls for one request. call_openai_api returns
getattr of output_text with default None, hence Option String; call_xai_api
returns the content field of the sampled chat message, a String. Each call can
instead raise an exception, the error case. -/
structure Env where
  openaiCall : String → String → Except Exn (Option String)
  xaiCall : String → String → Except Exn String

/-- Identifier of a backend contacted by generate_comment. -/
inductive Backend where
  | openai
  | xai
  deriving DecidableEq

/-- generate_comment from app.py, instrumented with the list of backends called
in order. output_text starts at None. The api argument selects the preferred
backend: the string openai selects OpenAI, anything else selects xAI. The
preferred backend is called first; on an exception inside that call in the
caught taxonomy, the other backend is called; an exception of the fallback call
in its caught taxonomy leaves output_text at None; any exception outside the
relevant taxonomy propagates as the error case. -/
def generate_commentRun (env : Env) (prompt instruction api : String) :
    Except Exn (Option String) × List Backend :=
  if api = "openai" then
    match env.openaiCall prompt instruction with
    | .ok t => (.ok t, [.openai])
    | .error e =>
      if Exn.isOpenAITaxonomy e then
        match env.xaiCall prompt instruction with
        | .ok t => (.ok (some t), [.openai, .xai])
        | .error e2 =>
          if Exn.isRpcError e2 then (.ok none, [.openai, .xai])
          else (.error e2, [.openai, .xai])
      else (.error e, [.openai])
  else
    match env.xaiCall prompt instruction with
    | .ok t => (.ok (some t), [.xai])
    | .error e =>
      if Exn.isRpcError e then
        match env.openaiCall prompt instruction with
        | .ok t => (.ok t, [.xai, .openai])
        | .error e2 =>
          if Exn.isOpenAITaxonomy e2 then (.ok none, [.xai, .openai])
          else (.error e2, [.xai, .openai])
      else (.error e, [.xai])

/-- generate_comment from app.py: the returned output_text (None when both
backends failed), or a propagated exception. -/
def generate_comment (env : Env) (prompt instruction api : String) :
    Except Exn (Option String) :=
  (generate_commentRun env prompt instruction api).1

/-- Model of the Python str.strip method used by lambda_handler: removes
leading and trailing whitespace characters. Defined structurally over the
character list so that concrete instances evaluate. -/
def pyStrip (s : String) : String :=
  ⟨((s.data.dropWhile Char.isWhitespace).reverse.dropWhile
      Char.isWhitespace).reverse⟩

/-- Parsed JSON body of a buffered request: the three keys lambda_handler
reads. none models an absent key, so the default of the corresponding
dictionary get applies. -/
structure RequestBody where
  input : Option String
  instruction : Option String
  api : Option String

/-- Response body shapes produced by lambda_handler: empty, a JSON object with
a single error key, or a JSON object with a single output_text key. -/
inductive ResponseBody where
  | empty
  | errorMsg (msg : String)
  | outputText (text : String)
  deriving DecidableEq

/-- An API Gateway style HTTP response: status code and body. -/
structure HttpResponse where
  statusCode : Nat
  body : ResponseBody
  deriving DecidableEq

/-- lambda_handler from app.py, instrumented with the backends contacted. The
event is given by its httpMethod and its parsed JSON body, none when the raw
body is not valid JSON. The api error message of the source contains quoted
backend names; it is embedded here without the quote characters. -/
def lambda_handlerRun (env : Env) (httpMethod : String)
    (parsedBody : Option RequestBody) :
    Except Exn HttpResponse × List Backend :=
  if httpMethod = "OPTIONS" then (.ok ⟨200, .empty⟩, [])
  else
    match parsedBody with
    | none => (.ok ⟨400, .errorMsg "Invalid JSON format"⟩, [])
    | some body =>
      let prompt := body.input.getD ""
      if prompt = "" ∨ pyStrip prompt = "" then
        (.ok ⟨400, .errorMsg "Prompt is required"⟩, [])
      else
        let instruction := body.instruction.getD ""
        let api := body.api.getD "xai"
        if api ≠ "openai" ∧ api ≠ "xai" then
          (.ok ⟨400, .errorMsg "api must be openai or xai"⟩, [])
        else
          match generate_commentRun env prompt instruction api with
          | (.ok none, calls) =>
            (.ok ⟨500, .errorMsg "Comment generation failed"⟩, calls)
          | (.ok (some t), calls) => (.ok ⟨200, .outputText t⟩, calls)
          | (.error e, calls) => (.error e, calls)

/-- lambda_handler from app.py: the HTTP response, or a propagated exception. -/
def lambda_handler (env : Env) (httpMethod : String)
    (parsedBody : Option RequestBody) : Except Exn HttpResponse :=
  (lambda_handlerRun env httpMethod parsedBody).1

end CommentGen

namespace Streaming

/-- WorkInfo as validated by pydantic in main.py. Decimal values are embedded
by their numeric string after removal of the surrounding whitespace that the
Python Decimal constructor discards; that string is what the f-string
interpolation of create_comment_prompt renders. The source field names
price_prefix and price_suffix are shortened here to price_pre and price_suf.
Both source fields declare the alias pricePrefix, so both are populated from
the pricePrefix body key. -/
structure WorkInfo where
  name : String
  price : String
  official_price : String
  coupon_price : Option String
  price_pre : String
  price_suf : String
  genres : List String
  description : String
  deriving DecidableEq

/-- Raw JSON object supplied under the workInfo key, before pydantic
validation: one field per camelCase body key, none when the key is absent. The
couponPrice key is required but its value may be JSON null, hence the nested
Option. The priceSuffix key is listed to record that no model field declares
that alias, so it is never consulted. -/
structure RawWorkInfo where
  name : Option String
  price : Option String
  officialPrice : Option String
  couponPrice : Option (Option String)
  pricePrefixKey : Option String
  priceSuffixKey : Option String
  genres : Option (List String)
  description : Option String
  deriving DecidableEq

/-- Removal of leading and trailing whitespace from a character list, as the
Python Decimal constructor applies to string inputs. -/
def stripWS (l : List Char) : List Char :=
  ((l.dropWhile Char.isWhitespace).reverse.dropWhile Char.isWhitespace).reverse

/-- A run of one or more digit characters. -/
def digits1 (l : List Char) : Bool :=
  !l.isEmpty && l.all (fun c => c.isDigit)

/-- The coefficient of a decimal numeric string: digits with an optional
decimal point, where at least one digit is present on one side of the point. -/
def isCoefficient (l : List Char) : Bool :=
  match l.span (fun c => c ≠ '.') with
  | (ip, []) => digits1 ip
  | (ip, _ :: fp) =>
    (digits1 ip && fp.all (fun c => c.isDigit)) ||
    (ip.isEmpty && digits1 fp)

/-- An unsigned decimal numeric string: a coefficient with an optional
exponent part introduced by an indicator character. -/
def isDecimalBody (l : List Char) : Bool :=
  match l.span (fun c => c ≠ 'e' ∧ c ≠ 'E') with
  | (mant, []) => isCoefficient mant
  | (mant, _ :: ex) =>
    isCoefficient mant &&
    (match ex with
     | '+' :: ds => digits1 ds
     | '-' :: ds => digits1 ds
     | ds => digits1 ds)

/-- A decimal numeric string with an optional leading sign. -/
def isSignedDecimal (l : List Char) : Bool :=
  match l with
  | '+' :: r => isDecimalBody r
  | '-' :: r => isDecimalBody r
  | r => isDecimalBody r

/-- Model of the pydantic validation of a Decimal field given a JSON string:
the Python Decimal constructor accepts a decimal numeric string after removal
of leading and trailing whitespace (optional sign, digits with an optional
decimal point, optional exponent) and raises InvalidOperation otherwise, and
pydantic rejects the non-finite named values (NaN, Infinity) by default, so
only finite numeric strings pass. Underscore grouping is not modelled. The
validated value is kept as its whitespace-stripped numeric string; the exact
normalization the Decimal renderer applies to exotic forms (signs, exponents)
is not modelled further. -/
def decimalOfString (s : String) : Option String :=
  if isSignedDecimal (stripWS s.data) then some ⟨stripWS s.data⟩ else none

/-- Pydantic validation of WorkInfo: every field is required (no field declares
a default); price, officialPrice and a non-null couponPrice must validate as
Decimal; price_pre and price_suf are both read from the pricePrefix body key;
the priceSuffix body key is not read. -/
def parseWorkInfo (raw : RawWorkInfo) : Option WorkInfo :=
  match raw.name, raw.price, raw.officialPrice, raw.couponPrice,
      raw.pricePrefixKey, raw.genres, raw.description with
  | some n, some p, some op, some cp, some pp, some gs, some d =>
    match decimalOfString p, decimalOfString op with
    | some pd, some opd =>
      match cp with
      | none => some ⟨n, pd, opd, none, pp, pp, gs, d⟩
      | some cps =>
        match decimalOfString cps with
        | some cpd => some ⟨n, pd, opd, some cpd, pp, pp, gs, d⟩
        | none => none
    | _, _ => none
  | _, _, _, _, _, _, _ => none

/-- create_comment_prompt from main.py. -/
def create_comment_prompt (work : WorkInfo) : String :=
  let coupon_line :=
    match work.coupon_price with
    | some cp => "\nクーポン価格: " ++ work.price_pre ++ cp ++ work.price_suf
    | none => ""
  "以下の作品情報をもとに、作品に対して短いコメントをしてください。\n" ++
  "出力はコメントの本文のみにしてください。\n\n" ++
  "タイトル: " ++ work.name ++ "\n" ++
  "価格: " ++ work.price_pre ++ work.price ++ work.price_suf ++
  "（サークル設定価格: " ++ work.price_pre ++ work.official_price ++
  work.price_suf ++ "）" ++
  coupon_line ++ "\n" ++
  "ジャンル: " ++ String.intercalate ", " work.genres ++ "\n" ++
  "作品内容:\n" ++
  work.description

/-- A chunk object yielded by the xAI chat stream; content holds the text
fragment. -/
structure XaiChunk where
  content : String
  deriving DecidableEq

/-- xai_streamer from main.py: iterates the provider stream of pairs of a
response object and a chunk, and yields the content of each chunk, in order.
The finite provider emission sequence is embedded as a list; the response
object type is a parameter since the streamer ignores it. -/
def xai_streamer {α : Type} (providerStream : List (α × XaiChunk)) :
    List String :=
  providerStream.map (fun rc => rc.2.content)

/-- Validated body of a streaming request: the workInfo key. -/
structure AskRequest where
  work_info : WorkInfo
  deriving DecidableEq

/-- Raw JSON body of a streaming request, before pydantic validation. The
request field stands for an extra body key carrying a plain string; AskRequest
declares no such field, so pydantic ignores it. -/
structure RawAskRequest where
  workInfo : Option RawWorkInfo
  request : Option String
  deriving DecidableEq

/-- Pydantic validation of AskRequest: the workInfo key is required and must
validate as WorkInfo; any other key is ignored. -/
def parseAskRequest (raw : RawAskRequest) : Option AskRequest :=
  match raw.workInfo with
  | none => none
  | some rw =>
    match parseWorkInfo rw with
    | none => none
    | some w => some ⟨w⟩

/-- Value returned by the index endpoint: a StreamingResponse carrying a media
type and the fragment sequence its generator yields, which the transport
forwards unchanged. -/
inductive StreamingDecision where
  | streamingResponse (mediaType : String) (fragments : List String)
  deriving DecidableEq

/-- Fragment sequence written to the HTTP response body. -/
def StreamingDecision.fragments : StreamingDecision → List String
  | .streamingResponse _ fs => fs

/-- index from main.py, for a body that passed validation: synthesizes the
prompt with create_comment_prompt, takes the instruction text (the result of
the DynamoDB lookup, passed in as an argument), and returns a
StreamingResponse over xai_streamer with media type text/plain. xaiStream
gives the provider emission sequence for a prompt and instruction pair. -/
def index {α : Type} (body : AskRequest) (instructions : String)
    (xaiStream : String → String → List (α × XaiChunk)) : StreamingDecision :=
  let prompt := create_comment_prompt body.work_info
  .streamingResponse "text/plain" (xai_streamer (xaiStream prompt instructions))

/-- HTTP methods relevant to the registered route. -/
inductive HttpMethod where
  | get
  | post
  deriving DecidableEq

/-- Transport-level result of a request to the FastAPI app in main.py. Besides
a route response, the framework defaults apply, because main.py registers a
single POST route on a catch-all path and no exception handlers: a request
whose method does not match the route receives 405 Method Not Allowed from the
router, and a POST whose body is not valid JSON or fails AskRequest validation
receives the RequestValidationError default, status 422 with a JSON detail
body. -/
inductive RouteResult where
  | methodNotAllowed
  | validationError
  | response (d : StreamingDecision)
  deriving DecidableEq

/-- Status code of each transport-level result. -/
def RouteResult.status : RouteResult → Nat
  | .methodNotAllowed => 405
  | .validationError => 422
  | .response _ => 200

/-- Dispatch of the app in main.py over the framework defaults described at
RouteResult: the only route is POST on a catch-all path, so the path never
discriminates. rawBody is none when the request body is not valid JSON. -/
def appDispatch {α : Type} (method : HttpMethod)
    (rawBody : Option RawAskRequest) (instructions : String)
    (xaiStream : String → String → List (α × XaiChunk)) : RouteResult :=
  match method with
  | .get => .methodNotAllowed
  | .post =>
    match rawBody with
    | none => .validationError
    | some raw =>
      match parseAskRequest raw with
      | none => .validationError
      | some body => .response (index body instructions xaiStream)

end Streaming

namespace CommentGen

/-- Case lemma: the preferred OpenAI call returns, so no fallback happens. -/
theorem run_openai_ok (env : Env) (p i : String) (t : Option String)
    (h : env.openaiCall p i = .ok t) :
    generate_commentRun env p i "openai" = (.ok t, [.openai]) := by
  simp [generate_commentRun, h]

/-- Case lemma: the preferred xAI call returns, so no fallback happens. -/
theorem run_xai_ok (env : Env) (p i : String) (t : String)
    (h : env.xaiCall p i = .ok t) :
    generate_commentRun env p i "xai" = (.ok (some t), [.xai]) := by
  simp [generate_commentRun, h]

/-- Case lemma: the preferred OpenAI call raises inside the caught taxonomy
and the xAI fallback returns. -/
theorem run_openai_fb_ok (env : Env) (p i : String) (e : Exn) (t : String)
    (ho : env.openaiCall p i = .error e) (he : Exn.isOpenAITaxonomy e = true)
    (hx : env.xaiCall p i = .ok t) :
    generate_commentRun env p i "openai" = (.ok (some t), [.openai, .xai]) := by
  simp [generate_commentRun, ho, he, hx]

/-- Case lemma: the preferred xAI call raises inside the caught taxonomy and
the OpenAI fallback returns. -/
theorem run_xai_fb_ok (env : Env) (p i : String) (e : Exn) (t : Option String)
    (hx : env.xaiCall p i = .error e) (he : Exn.isRpcError e = true)
    (ho : env.openaiCall p i = .ok t) :
    generate_commentRun env p i "xai" = (.ok t, [.xai, .openai]) := by
  simp [generate_commentRun, ho, he, hx]

/-- Case lemma: with OpenAI preferred, both calls raise inside their caught
taxonomies, so the run returns None after contacting both backends. -/
theorem run_openai_both_fail (env : Env) (p i : String) (eo ex : Exn)
    (ho : env.openaiCall p i = .error eo) (hto : Exn.isOpenAITaxonomy eo = true)
    (hx : env.xaiCall p i = .error ex) (htx : Exn.isRpcError ex = true) :
    generate_commentRun env p i "openai" = (.ok none, [.openai, .xai]) := by
  simp [generate_commentRun, ho, hto, hx, htx]

/-- Case lemma: with xAI preferred, both calls raise inside their caught
taxonomies, so the run returns None after contacting both backends. -/
theorem run_xai_both_fail (env : Env) (p i : String) (eo ex : Exn)
    (ho : env.openaiCall p i = .error eo) (hto : Exn.isOpenAITaxonomy eo = true)
    (hx : env.xaiCall p i = .error ex) (htx : Exn.isRpcError ex = true) :
    generate_commentRun env p i "xai" = (.ok none, [.xai, .openai]) := by
  simp [generate_commentRun, ho, hto, hx, htx]

/-- Case lemma: the preferred OpenAI call raises outside the caught taxonomy,
so the exception propagates and no fallback happens. -/
theorem run_openai_propagates (env : Env) (p i : String) (e : Exn)
    (ho : env.openaiCall p i = .error e) (he : Exn.isOpenAITaxonomy e = false) :
    generate_commentRun env p i "openai" = (.error e, [.openai]) := by
  simp [generate_commentRun, ho, he]

/-- Case lemma: the preferred xAI call raises outside the caught taxonomy, so
the exception propagates and no fallback happens. -/
theorem run_xai_propagates (env : Env) (p i : String) (e : Exn)
    (hx : env.xaiCall p i = .error e) (he : Exn.isRpcError e = false) :
    generate_commentRun env p i "xai" = (.error e, [.xai]) := by
  simp [generate_commentRun, hx, he]

/-- Reduction lemma for lambda_handlerRun on a well-formed POST body: the
prompt is non-blank and the api selector is valid, so the handler runs
generate_commentRun and maps its outcome. -/
theorem lambda_run_reduces (env : Env) (body : RequestBody) (p i api : String)
    (hin : body.input = some p) (hp : pyStrip p ≠ "")
    (hins : body.instruction = some i) (hapi : body.api = some api)
    (hv : api = "openai" ∨ api = "xai") :
    lambda_handlerRun env "POST" (some body) =
      match generate_commentRun env p i api with
      | (.ok none, calls) =>
        (.ok ⟨500, .errorMsg "Comment generation failed"⟩, calls)
      | (.ok (some t), calls) => (.ok ⟨200, .outputText t⟩, calls)
      | (.error e, calls) => (.error e, calls) := by
  have hpe : p ≠ "" := by
    intro h
    rw [h] at hp
    exact hp (by decide)
  unfold lambda_handlerRun
  rw [if_neg (by simp)]
  simp only [hin, hins, hapi, Option.getD_some]
  rw [if_neg (by simp [hpe, hp]), if_neg (by rcases hv with rfl | rfl <;> simp)]

/-- Environment where both backend calls return. -/
def envBothOk : Env :=
  ⟨fun _ _ => .ok (some "openai text"), fun _ _ => .ok "Hello!"⟩

/-- Environment where the OpenAI call raises a rate limit error and the xAI
call returns. -/
def envOpenAIDown : Env :=
  ⟨fun _ _ => .error (.rateLimitError "limit"), fun _ _ => .ok "Hello!"⟩

/-- Environment where the xAI call raises an RpcError and the OpenAI call
returns. -/
def envXaiDown : Env :=
  ⟨fun _ _ => .ok (some "openai text"), fun _ _ => .error (.rpcError "down")⟩

/-- Environment where both calls raise inside their caught taxonomies. -/
def envBothDown : Env :=
  ⟨fun _ _ => .error (.apiError "a"), fun _ _ => .error (.rpcError "b")⟩

/-- Environment where both calls raise exceptions outside the caught
taxonomies. -/
def envOdd : Env :=
  ⟨fun _ _ => .error (.other "ValueError" "bad"),
   fun _ _ => .error (.other "TypeError" "bad")⟩

/-- C1: for every prompt and instruction, if the generateComplete call of the
preferred backend fails with an exception in its caught ProviderError taxonomy
(OpenAI: APIError, APIConnectionError, RateLimitError; xAI: grpc.RpcError) and
the call of the alternate backend succeeds, generate_comment returns the text
of the alternate backend. -/
theorem c1_fallback_returns_alternate (env : Env) (p i : String) :
    (∀ e t, env.openaiCall p i = .error e → Exn.isOpenAITaxonomy e = true →
      env.xaiCall p i = .ok t →
      generate_comment env p i "openai" = .ok (some t)) ∧
    (∀ e t, env.xaiCall p i = .error e → Exn.isRpcError e = true →
      env.openaiCall p i = .ok t →
      generate_comment env p i "xai" = .ok t) := by
  constructor
  · intro e t ho he hx
    unfold generate_comment
    rw [run_openai_fb_ok env p i e t ho he hx]
  · intro e t hx he ho
    unfold generate_comment
    rw [run_xai_fb_ok env p i e t hx he ho]

/-- Witness for C1 at concrete inputs in both preference directions. -/
theorem c1_fallback_returns_alternate_witness :
    generate_comment envOpenAIDown "Hi" "" "openai" = .ok (some "Hello!") ∧
    generate_comment envXaiDown "Hi" "" "xai" = .ok (some "openai text") :=
  ⟨(c1_fallback_returns_alternate envOpenAIDown "Hi" "").1
      (.rateLimitError "limit") "Hello!" rfl rfl rfl,
   (c1_fallback_returns_alternate envXaiDown "Hi" "").2
      (.rpcError "down") (some "openai text") rfl rfl rfl⟩

/-- C2: for every non-blank prompt, if the call of the preferred backend
succeeds, generate_comment returns the result text of that backend and the
alternate backend is never invoked: the call trace holds the preferred backend
only. -/
theorem c2_preferred_success_no_fallback (env : Env) (p i : String)
    (_hp : pyStrip p ≠ "") :
    (∀ t, env.openaiCall p i = .ok t →
      generate_commentRun env p i "openai" = (.ok t, [.openai])) ∧
    (∀ t, env.xaiCall p i = .ok t →
      generate_commentRun env p i "xai" = (.ok (some t), [.xai])) :=
  ⟨fun t h => run_openai_ok env p i t h, fun t h => run_xai_ok env p i t h⟩

/-- Witness for C2 at concrete inputs in both preference directions. -/
theorem c2_preferred_success_no_fallback_witness :
    generate_commentRun envBothOk "Hi" "" "openai" =
      (.ok (some "openai text"), [.openai]) ∧
    generate_commentRun envBothOk "Hi" "" "xai" =
      (.ok (some "Hello!"), [.xai]) :=
  ⟨(c2_preferred_success_no_fallback envBothOk "Hi" "" (by decide)).1
      (some "openai text") rfl,
   (c2_preferred_success_no_fallback envBothOk "Hi" "" (by decide)).2
      "Hello!" rfl⟩

/-- C3: when both backends fail with their caught ProviderError taxonomies,
generate_comment returns the failure value None rather than propagating an
exception, and lambda_handler maps this outcome to HTTP 500 whose body carries
only the generic failure message. -/
theorem c3_both_fail_none_and_500 (env : Env) (p i : String) (eo ex : Exn)
    (ho : env.openaiCall p i = .error eo) (hto : Exn.isOpenAITaxonomy eo = true)
    (hx : env.xaiCall p i = .error ex) (htx : Exn.isRpcError ex = true) :
    (∀ api, api = "openai" ∨ api = "xai" →
      generate_comment env p i api = .ok none) ∧
    (∀ (body : RequestBody) (api : String), body.input = some p →
      pyStrip p ≠ "" → body.instruction = some i → body.api = some api →
      (api = "openai" ∨ api = "xai") →
      lambda_handler env "POST" (some body) =
        .ok ⟨500, .errorMsg "Comment generation failed"⟩) := by
  constructor
  · rintro api (rfl | rfl)
    · unfold generate_comment
      rw [run_openai_both_fail env p i eo ex ho hto hx htx]
    · unfold generate_comment
      rw [run_xai_both_fail env p i eo ex ho hto hx htx]
  · intro body api hin hp hins hapi hv
    unfold lambda_handler
    rw [lambda_run_reduces env body p i api hin hp hins hapi hv]
    rcases hv with rfl | rfl
    · rw [run_openai_both_fail env p i eo ex ho hto hx htx]
    · rw [run_xai_both_fail env p i eo ex ho hto hx htx]

/-- Witness for C3 at concrete inputs. -/
theorem c3_both_fail_none_and_500_witness :
    generate_comment envBothDown "Hi" "" "xai" = .ok none ∧
    lambda_handler envBothDown "POST"
        (some ⟨some "Hi", some "", some "openai"⟩) =
      .ok ⟨500, .errorMsg "Comment generation failed"⟩ :=
  ⟨(c3_both_fail_none_and_500 envBothDown "Hi" "" (.apiError "a")
      (.rpcError "b") rfl rfl rfl rfl).1 "xai" (Or.inr rfl),
   (c3_both_fail_none_and_500 envBothDown "Hi" "" (.apiError "a")
      (.rpcError "b") rfl rfl rfl rfl).2 ⟨some "Hi", some "", some "openai"⟩
      "openai" rfl (by decide) rfl rfl (Or.inl rfl)⟩

/-- C4: if the call of the preferred backend raises an exception outside its
caught ProviderError taxonomy, generate_comment propagates that exception
uncaught and makes no fallback call: the run ends in the error case with only
the preferred backend in the call trace. -/
theorem c4_unexpected_exception_propagates (env : Env) (p i : String) :
    (∀ e, env.openaiCall p i = .error e → Exn.isOpenAITaxonomy e = false →
      generate_commentRun env p i "openai" = (.error e, [.openai])) ∧
    (∀ e, env.xaiCall p i = .error e → Exn.isRpcError e = false →
      generate_commentRun env p i "xai" = (.error e, [.xai])) :=
  ⟨fun e h hf => run_openai_propagates env p i e h hf,
   fun e h hf => run_xai_propagates env p i e h hf⟩

/-- Witness for C4 at concrete inputs in both preference directions. -/
theorem c4_unexpected_exception_propagates_witness :
    generate_commentRun envOdd "Hi" "" "openai" =
      (.error (.other "ValueError" "bad"), [.openai]) ∧
    generate_commentRun envOdd "Hi" "" "xai" =
      (.error (.other "TypeError" "bad"), [.xai]) :=
  ⟨(c4_unexpected_exception_propagates envOdd "Hi" "").1
      (.other "ValueError" "bad") rfl rfl,
   (c4_unexpected_exception_propagates envOdd "Hi" "").2
      (.other "TypeError" "bad") rfl rfl⟩

end CommentGen

namespace Streaming

/-- C5: for every successful stream, the fragment sequence emitted to the HTTP
response by the index endpoint equals the fragment sequence emitted by the
provider, in the same order, with no fragment reordered, batched ahead or
dropped: it is exactly the content of each provider chunk, chunk by chunk. -/
theorem c5_stream_order_preserved {α : Type} (body : AskRequest)
    (instructions : String)
    (xaiStream : String → String → List (α × XaiChunk)) :
    (index body instructions xaiStream).fragments =
      (xaiStream (create_comment_prompt body.work_info) instructions).map
        (fun rc => rc.2.content) := rfl

/-- Raw workInfo whose user-supplied text fields are all whitespace; the price
keys hold numeric strings and the couponPrice key holds JSON null, so the body
passes the pydantic Decimal validation. -/
def blankRaw : RawWorkInfo :=
  ⟨some " ", some "0", some "0", some none, some " ", some " ", some [],
   some " "⟩

/-- The validated WorkInfo of blankRaw. -/
def blankWork : WorkInfo := ⟨" ", "0", "0", none, " ", " ", [], " "⟩

/-- Provider behavior emitting a single chunk. -/
def oneChunkStream : String → String → List (Unit × XaiChunk) :=
  fun _ _ => [((), ⟨"hello"⟩)]

/-- C6 counterexample: a streaming request that passes validation yet carries
only whitespace in every user-supplied text field is not rejected with 400 and
the provider is contacted: the endpoint answers 200 and emits the provider
chunk. -/
theorem c6_counterexample :
    appDispatch .post (some ⟨some blankRaw, none⟩) "" oneChunkStream =
      .response (.streamingResponse "text/plain" ["hello"]) ∧
    RouteResult.status
      (appDispatch .post (some ⟨some blankRaw, none⟩) "" oneChunkStream) ≠
        400 :=
  ⟨rfl, by decide⟩

/-- C6 amended: in buffered mode a blank or whitespace-only input yields HTTP
400 with no backend contacted; the streaming endpoint has no blank-input
check: its prompt is synthesized from workInfo, and every body that passes
validation receives a streaming response drawn from the provider stream. -/
theorem c6_blank_prompt (env : CommentGen.Env) {α : Type} :
    (∀ body : CommentGen.RequestBody,
      CommentGen.pyStrip (body.input.getD "") = "" →
      CommentGen.lambda_handlerRun env "POST" (some body) =
        (.ok ⟨400, .errorMsg "Prompt is required"⟩, [])) ∧
    (∀ (raw : RawAskRequest) (req : AskRequest) (instructions : String)
      (xaiStream : String → String → List (α × XaiChunk)),
      parseAskRequest raw = some req →
      appDispatch .post (some raw) instructions xaiStream =
        .response (.streamingResponse "text/plain"
          ((xaiStream (create_comment_prompt req.work_info) instructions).map
            (fun rc => rc.2.content)))) := by
  constructor
  · intro body hb
    unfold CommentGen.lambda_handlerRun
    rw [if_neg (by simp)]
    dsimp only
    rw [if_pos (Or.inr hb)]
  · intro raw req instructions xaiStream hparse
    unfold appDispatch
    dsimp only
    rw [hparse]
    rfl

/-- Witness for C6 amended at concrete inputs in both modes. -/
theorem c6_blank_prompt_witness :
    CommentGen.lambda_handlerRun CommentGen.envBothOk "POST"
        (some ⟨some " ", none, none⟩) =
      (.ok ⟨400, .errorMsg "Prompt is required"⟩, []) ∧
    appDispatch .post (some ⟨some blankRaw, none⟩) "" oneChunkStream =
      .response (.streamingResponse "text/plain" ["hello"]) :=
  ⟨(c6_blank_prompt CommentGen.envBothOk (α := Unit)).1
      ⟨some " ", none, none⟩ (by decide),
   (c6_blank_prompt CommentGen.envBothOk (α := Unit)).2
      ⟨some blankRaw, none⟩ ⟨blankWork⟩ "" oneChunkStream rfl⟩

end Streaming

namespace CommentGen

/-- C7: a buffered request whose api field is present but neither openai nor
xai is answered with HTTP 400 and no backend is contacted, whatever the other
fields hold; an absent api field is equivalent to api set to xai. -/
theorem c7_api_validation (env : Env) :
    (∀ (body : RequestBody) (a : String), body.api = some a →
      a ≠ "openai" → a ≠ "xai" →
      ∃ m, lambda_handlerRun env "POST" (some body) =
        (.ok ⟨400, .errorMsg m⟩, [])) ∧
    (∀ inp ins : Option String,
      lambda_handlerRun env "POST" (some ⟨inp, ins, none⟩) =
        lambda_handlerRun env "POST" (some ⟨inp, ins, some "xai"⟩)) := by
  constructor
  · intro body a hapi h1 h2
    unfold lambda_handlerRun
    rw [if_neg (by simp)]
    dsimp only
    by_cases hb : body.input.getD "" = "" ∨ pyStrip (body.input.getD "") = ""
    · exact ⟨"Prompt is required", by rw [if_pos hb]⟩
    · refine ⟨"api must be openai or xai", ?_⟩
      rw [if_neg hb]
      simp only [hapi, Option.getD_some]
      rw [if_pos ⟨h1, h2⟩]
  · intro inp ins
    rfl

/-- Witness for C7 at concrete inputs. -/
theorem c7_api_validation_witness :
    (∃ m, lambda_handlerRun envBothOk "POST"
        (some ⟨some "Hi", none, some "foo"⟩) = (.ok ⟨400, .errorMsg m⟩, [])) ∧
    lambda_handlerRun envBothOk "POST" (some ⟨some "Hi", none, none⟩) =
      lambda_handlerRun envBothOk "POST" (some ⟨some "Hi", none, some "xai"⟩) :=
  ⟨(c7_api_validation envBothOk).1 ⟨some "Hi", none, some "foo"⟩ "foo" rfl
      (by decide) (by decide),
   (c7_api_validation envBothOk).2 (some "Hi") none⟩

end CommentGen

namespace Streaming

/-- C8: evaluation of the streaming boundary at the failing input: a POST
whose JSON body holds only the request key set to the empty string lacks the
required workInfo key, so the framework validation default answers with status
422 and a JSON detail body, not the HTTP 400 that the endpoint documentation
and the spec state. -/
theorem c8_validation_gives_422 :
    appDispatch (α := Unit) .post (some ⟨none, some ""⟩) ""
        (fun _ _ => []) = .validationError ∧
    RouteResult.status
        (appDispatch (α := Unit) .post (some ⟨none, some ""⟩) ""
          (fun _ _ => [])) = 422 ∧
    (422 : Nat) ≠ 400 :=
  ⟨rfl, rfl, by decide⟩

/-- C9 counterexample: a GET request to the streaming service is not accepted
with an empty success response: evaluated at a concrete GET request, the
dispatch answers 405 Method Not Allowed, because only a POST route exists. -/
theorem c9_counterexample :
    appDispatch (α := Unit) .get none "" (fun _ _ => []) =
      .methodNotAllowed ∧
    RouteResult.status
      (appDispatch (α := Unit) .get none "" (fun _ _ => [])) ≠ 200 :=
  ⟨rfl, by decide⟩

/-- C9 amended: every GET request on any path of the streaming service, with
any body, receives 405 Method Not Allowed from the router, since the app
registers a POST route only. -/
theorem c9_get_method_not_allowed {α : Type} (rawBody : Option RawAskRequest)
    (instructions : String)
    (xaiStream : String → String → List (α × XaiChunk)) :
    appDispatch .get rawBody instructions xaiStream = .methodNotAllowed := rfl

/-- Replacement of the priceSuffix body key of a raw workInfo object. -/
def RawWorkInfo.setPriceSuffixKey (raw : RawWorkInfo) (s : Option String) :
    RawWorkInfo :=
  ⟨raw.name, raw.price, raw.officialPrice, raw.couponPrice,
   raw.pricePrefixKey, s, raw.genres, raw.description⟩

/-- C10: both price positions of the synthesized prompt come from the
pricePrefix body key: a validated WorkInfo always carries equal price_pre and
price_suf fields, and changing the priceSuffix body key changes neither
validation nor the generated prompt text. -/
theorem c10_price_suffix_ignored (raw : RawWorkInfo) (s s2 : Option String) :
    parseWorkInfo (raw.setPriceSuffixKey s) =
      parseWorkInfo (raw.setPriceSuffixKey s2) ∧
    (∀ w, parseWorkInfo raw = some w → w.price_suf = w.price_pre) ∧
    (∀ w w2, parseWorkInfo (raw.setPriceSuffixKey s) = some w →
      parseWorkInfo (raw.setPriceSuffixKey s2) = some w2 →
      create_comment_prompt w = create_comment_prompt w2) := by
  refine ⟨rfl, ?_, ?_⟩
  · intro w h
    unfold parseWorkInfo at h
    repeat' split at h
    all_goals try exact Option.noConfusion h
    all_goals cases h
    all_goals rfl
  · intro w w2 h1 h2
    have heq : parseWorkInfo (raw.setPriceSuffixKey s) =
        parseWorkInfo (raw.setPriceSuffixKey s2) := rfl
    rw [heq, h2] at h1
    injection h1 with h1
    rw [h1]

/-- Concrete raw workInfo used by the C10 witness. -/
def sampleRaw : RawWorkInfo :=
  ⟨some "t", some "100", some "200", some (some "50"), some "JPY ",
   some "yen", some ["g1", "g2"], some "desc"⟩

/-- The validated WorkInfo of sampleRaw: both price fields read the
pricePrefix key. -/
def sampleWork : WorkInfo :=
  ⟨"t", "100", "200", some "50", "JPY ", "JPY ", ["g1", "g2"], "desc"⟩

/-- Witness for C10 at a concrete raw body. -/
theorem c10_price_suffix_ignored_witness :
    sampleWork.price_suf = sampleWork.price_pre ∧
    create_comment_prompt sampleWork = create_comment_prompt sampleWork :=
  ⟨(c10_price_suffix_ignored sampleRaw (some "yen") none).2.1 sampleWork rfl,
   (c10_price_suffix_ignored sampleRaw (some "yen") none).2.2 sampleWork
      sampleWork rfl rfl⟩

end Streaming

end DBC
